import Mathlib

/-!
Shallow embedding of `src/crates/canopy-parser/udpipe_wrapper.cpp` and
`udpipe_wrapper.h` (the canopy marshalling boundary around a UDPipe model).

Modelling conventions:
* C pointers that may be null are `Option`; `none` is the null pointer.
* `char*` string buffers are `Option String` (`none` = `nullptr`).
* `malloc` may fail; allocation outcomes are drawn from an explicit oracle
  (`AllocSt`): each allocation consumes the head of a list of booleans, and an
  exhausted oracle means every further allocation succeeds.
* The external UDPipe model (tokenizer / tagger / parser) is opaque; it is a
  record of stage functions, each of which can return a value, fail with an
  error string, or raise a C++ exception (`Exn`).
* `udpipe_sentence_destroy` is modelled as the list of `free` events it
  performs; `none` marks undefined behaviour (reading past / through a null
  word array).
-/

/-- Allocation oracle: each `malloc` consumes the head of the list; an
exhausted oracle means every subsequent allocation succeeds. -/
structure AllocSt where
  oracle : List Bool
deriving DecidableEq, Repr

/-- One allocation attempt: returns whether it succeeded and the rest of
the oracle. -/
def allocOk : AllocSt → Bool × AllocSt
  | ⟨[]⟩ => (true, ⟨[]⟩)
  | ⟨b :: bs⟩ => (b, ⟨bs⟩)

/-- Embeds `duplicate_string` (udpipe_wrapper.cpp lines 10-19): empty input
returns `nullptr` without allocating; otherwise `malloc(len+1)` and, if that
succeeded, a `strcpy` of the contents; a failed `malloc` returns `nullptr`. -/
def duplicate_string (str : String) (a : AllocSt) : Option String × AllocSt :=
  if str.isEmpty then (none, a)
  else
    let (ok, a1) := allocOk a
    if ok then (some str, a1) else (none, a1)

/-- Flat word record crossing the boundary (`UDPipeWord` in
udpipe_wrapper.h): textual fields are owned C strings, possibly null. -/
structure UDPipeWord where
  id : Int
  form : Option String
  lemma_f : Option String
  upostag : Option String
  xpostag : Option String
  feats : Option String
  head : Int
  deprel : Option String
  deps : Option String
  misc : Option String
deriving DecidableEq, Repr

/-- Internal UDPipe word (`ufal::udpipe::word`): fields are `std::string`
values, never null. -/
structure InternalWord where
  id : Int
  form : String
  lemma_f : String
  upostag : String
  xpostag : String
  feats : String
  head : Int
  deprel : String
  deps : String
  misc : String
deriving DecidableEq, Repr

/-- Internal UDPipe sentence (`ufal::udpipe::sentence`): its word list. -/
structure InternalSentence where
  words : List InternalWord
deriving DecidableEq, Repr

/-- Caller-owned sentence record (`UDPipeSentence` in udpipe_wrapper.h):
`words` is an owned array pointer (null = `none`), `word_count` its declared
length, `text` an owned copy of the input. -/
structure UDPipeSentence where
  words : Option (List UDPipeWord)
  word_count : Nat
  text : Option String
deriving DecidableEq, Repr

/-- Embeds `udpipe_sentence_create` (lines 21-29): `malloc` the record and,
if that succeeded, zero-initialize all fields. -/
def udpipe_sentence_create (a : AllocSt) : Option UDPipeSentence × AllocSt :=
  let (ok, a1) := allocOk a
  if ok then (some ⟨none, 0, none⟩, a1) else (none, a1)

/-- Identity of a `free` performed by `udpipe_sentence_destroy`:
`wordField i k` is field `k` of word `i`, then the word array, the text
buffer, and the record itself. -/
inductive FreeTarget where
  | wordField : Nat → Nat → FreeTarget
  | wordsArray : FreeTarget
  | textPtr : FreeTarget
  | recordPtr : FreeTarget
deriving DecidableEq, Repr

/-- The `free` events for one word's owned fields, in source order
(form, lemma, upostag, xpostag, feats, deprel, deps, misc); `free(nullptr)`
is a no-op and emits no event. -/
def free_word_fields (i : Nat) (w : UDPipeWord) : List FreeTarget :=
  (if w.form.isSome then [FreeTarget.wordField i 0] else []) ++
  (if w.lemma_f.isSome then [FreeTarget.wordField i 1] else []) ++
  (if w.upostag.isSome then [FreeTarget.wordField i 2] else []) ++
  (if w.xpostag.isSome then [FreeTarget.wordField i 3] else []) ++
  (if w.feats.isSome then [FreeTarget.wordField i 4] else []) ++
  (if w.deprel.isSome then [FreeTarget.wordField i 5] else []) ++
  (if w.deps.isSome then [FreeTarget.wordField i 6] else []) ++
  (if w.misc.isSome then [FreeTarget.wordField i 7] else [])

/-- Embeds `udpipe_sentence_destroy` (lines 31-50) as its sequence of `free`
events. Null record: early return, no events. Otherwise the loop reads
`words[i]` for `i < word_count` (undefined behaviour, `none`, if the array is
null or shorter than `word_count`), frees each word's string fields, then the
word array, the text, and the record; `free` of null emits nothing. -/
def udpipe_sentence_destroy : Option UDPipeSentence → Option (List FreeTarget)
  | none => some []
  | some s =>
    let arr : Option (List UDPipeWord) :=
      match s.words with
      | none => if s.word_count = 0 then some [] else none
      | some ws => if s.word_count ≤ ws.length then some (ws.take s.word_count) else none
    match arr with
    | none => none
    | some ws =>
      some ((ws.enum.map fun p => free_word_fields p.1 p.2).flatten ++
        (if s.words.isSome then [FreeTarget.wordsArray] else []) ++
        (if s.text.isSome then [FreeTarget.textPtr] else []) ++
        [FreeTarget.recordPtr])

/-- A C++ exception from the external model layer: a `std::exception` with
its `what()` text, or any other thrown value. -/
inductive Exn where
  | std : String → Exn
  | other : Exn
deriving DecidableEq, Repr

/-- Outcome of invoking an external-model operation: a return value, or a
thrown exception. -/
inductive ExtResult (α : Type) where
  | ok : α → ExtResult α
  | thrown : Exn → ExtResult α
deriving DecidableEq, Repr

/-- The opaque UDPipe model behind `model_ptr`: each pipeline stage either
returns, fails with an error string (`Except.error`, possibly empty), or
throws. `tokenizer_creation` returning `ok false` is `new_tokenizer`
yielding a null pointer; `tokenize` combines `set_text` with
`next_sentence` (error = the tokenizer's error text); `tag` and `parse`
return the transformed sentence or their error text. -/
structure Model where
  tokenizer_creation : ExtResult Bool
  tokenize : String → ExtResult (Except String InternalSentence)
  tag : InternalSentence → ExtResult (Except String InternalSentence)
  parse : InternalSentence → ExtResult (Except String InternalSentence)

/-- The catch blocks' message (lines 142-152): a `std::exception` reports
its `what()` text, anything else reports "Unknown error occurred". -/
def exn_message : Exn → String
  | Exn.std s => s
  | Exn.other => "Unknown error occurred"

/-- Embeds `if (error_msg) *error_msg = duplicate_string(msg)`: a null
channel is left untouched; otherwise the cell is overwritten with the
(allocation-dependent) copy. -/
def set_error (error_msg : Option (Option String)) (msg : String)
    (a : AllocSt) : Option (Option String) × AllocSt :=
  match error_msg with
  | none => (none, a)
  | some _ =>
    let (v, a1) := duplicate_string msg a
    (some v, a1)

/-- The per-word copy in the extraction loop (lines 121-135) and in
`udpipe_sentence_get_word` (lines 174-183): scalars copied verbatim, each
textual field through `duplicate_string`, in source order. -/
def convert_word (w : InternalWord) (a : AllocSt) : UDPipeWord × AllocSt :=
  let (form, a1) := duplicate_string w.form a
  let (lem, a2) := duplicate_string w.lemma_f a1
  let (upostag, a3) := duplicate_string w.upostag a2
  let (xpostag, a4) := duplicate_string w.xpostag a3
  let (feats, a5) := duplicate_string w.feats a4
  let (deprel, a6) := duplicate_string w.deprel a5
  let (deps, a7) := duplicate_string w.deps a6
  let (misc, a8) := duplicate_string w.misc a7
  (⟨w.id, form, lem, upostag, xpostag, feats, w.head, deprel, deps, misc⟩, a8)

/-- The extraction loop over `s.words` (lines 121-135), threading the
allocation oracle left to right. -/
def convert_words : List InternalWord → AllocSt → List UDPipeWord × AllocSt
  | [], a => ([], a)
  | w :: ws, a =>
    let (cw, a1) := convert_word w a
    let (rest, a2) := convert_words ws a1
    (cw :: rest, a2)

/-- Result of one `udpipe_process_text` call: the returned int, the record
behind the `result` pointer after the call, the error-message cell after the
call (outer `none` = the caller passed a null channel), and the remaining
allocation oracle. -/
structure ProcResult where
  rc : Int
  res : Option UDPipeSentence
  err : Option (Option String)
  alloc : AllocSt
deriving DecidableEq, Repr

/-- Embeds `udpipe_process_text` (lines 52-153). Null `model_ptr`, `text` or
`result` fails with "Invalid parameters". Otherwise the three pipeline
stages run in order inside a try/catch; each failure writes its message and
returns 0. On a parsed sentence the word array is `malloc`ed (failure writes
"Memory allocation failed" and returns 0, with `word_count` already set),
the words are copied via `duplicate_string` with no failure check, the
original input text is copied, and 1 is returned. -/
def udpipe_process_text (model_ptr : Option Model) (text : Option String)
    (result : Option UDPipeSentence) (error_msg : Option (Option String))
    (a : AllocSt) : ProcResult :=
  match model_ptr, text, result with
  | some m, some t, some rec =>
    (match m.tokenizer_creation with
    | ExtResult.thrown e =>
      let (em, a1) := set_error error_msg (exn_message e) a
      ⟨0, some rec, em, a1⟩
    | ExtResult.ok false =>
      let (em, a1) := set_error error_msg "Failed to create tokenizer" a
      ⟨0, some rec, em, a1⟩
    | ExtResult.ok true =>
      match m.tokenize t with
      | ExtResult.thrown e =>
        let (em, a1) := set_error error_msg (exn_message e) a
        ⟨0, some rec, em, a1⟩
      | ExtResult.ok (Except.error err) =>
        let (em, a1) := set_error error_msg
          (if err.isEmpty then "No sentence found" else err) a
        ⟨0, some rec, em, a1⟩
      | ExtResult.ok (Except.ok s1) =>
        match m.tag s1 with
        | ExtResult.thrown e =>
          let (em, a1) := set_error error_msg (exn_message e) a
          ⟨0, some rec, em, a1⟩
        | ExtResult.ok (Except.error err) =>
          let (em, a1) := set_error error_msg
            (if err.isEmpty then "POS tagging failed" else err) a
          ⟨0, some rec, em, a1⟩
        | ExtResult.ok (Except.ok s2) =>
          match m.parse s2 with
          | ExtResult.thrown e =>
            let (em, a1) := set_error error_msg (exn_message e) a
            ⟨0, some rec, em, a1⟩
          | ExtResult.ok (Except.error err) =>
            let (em, a1) := set_error error_msg
              (if err.isEmpty then "Dependency parsing failed" else err) a
            ⟨0, some rec, em, a1⟩
          | ExtResult.ok (Except.ok s3) =>
            let n := s3.words.length
            if n > 0 then
              let (okA, a1) := allocOk a
              if okA then
                let (ws, a2) := convert_words s3.words a1
                let (topt, a3) := duplicate_string t a2
                ⟨1, some ⟨some ws, n, topt⟩, error_msg, a3⟩
              else
                let (em, a2) := set_error error_msg "Memory allocation failed" a1
                ⟨0, some { rec with words := none, word_count := n }, em, a2⟩
            else
              let (topt, a1) := duplicate_string t a
              ⟨1, some { rec with word_count := 0, text := topt }, error_msg, a1⟩)
  | _, _, _ =>
    let (em, a1) := set_error error_msg "Invalid parameters" a
    ⟨0, result, em, a1⟩

/-- Embeds `udpipe_sentence_get_word_count` (lines 155-160): 0 for a null
handle, otherwise the internal word-list length. -/
def udpipe_sentence_get_word_count : Option InternalSentence → Nat
  | none => 0
  | some s => s.words.length

/-- Result of one `udpipe_sentence_get_word` call: the returned int, the
word cell behind the `word` pointer after the call, and the remaining
oracle. -/
structure GetWordResult where
  rc : Int
  word : Option UDPipeWord
  alloc : AllocSt
deriving DecidableEq, Repr

/-- Embeds `udpipe_sentence_get_word` (lines 162-186): null handle or null
out-pointer returns 0; an index at or past the word count returns 0 leaving
the out-record untouched; otherwise the word is copied field by field via
`duplicate_string` and 1 is returned. -/
def udpipe_sentence_get_word (sentence_ptr : Option InternalSentence)
    (index : Nat) (word : Option UDPipeWord) (a : AllocSt) : GetWordResult :=
  match sentence_ptr, word with
  | some s, some w0 =>
    if h : index < s.words.length then
      let (nw, a1) := convert_word (s.words.get ⟨index, h⟩) a
      ⟨1, some nw, a1⟩
    else ⟨0, some w0, a⟩
  | _, w => ⟨0, w, a⟩

/-- Embeds `udpipe_free_string` (lines 188-190): frees the buffer, a no-op
on null; modelled as whether a free event occurs. -/
def udpipe_free_string : Option String → Bool
  | none => false
  | some _ => true

/-! Concrete fixtures for witnesses and counterexamples. -/

/-- The zero-initialized record produced by `udpipe_sentence_create`. -/
def zero_record : UDPipeSentence := ⟨none, 0, none⟩

/-- A zeroed word cell for `udpipe_sentence_get_word` out-parameters. -/
def w_zero : UDPipeWord := ⟨0, none, none, none, none, none, 0, none, none, none⟩

/-- An internal word with a non-empty `form` (a tagged, parsed "cat"). -/
def w_cat : InternalWord := ⟨1, "cat", "cat", "NOUN", "NN", "", 0, "root", "", ""⟩

/-- A one-word internal sentence. -/
def sent_cat : InternalSentence := ⟨[w_cat]⟩

/-- A well-behaved concrete model: tokenizing non-empty text yields
`sent_cat`, tokenizing empty text finds no sentence (empty error text), and
tagging / parsing succeed in place. -/
def model_cat : Model where
  tokenizer_creation := ExtResult.ok true
  tokenize := fun t =>
    if t.isEmpty then ExtResult.ok (Except.error "")
    else ExtResult.ok (Except.ok sent_cat)
  tag := fun s => ExtResult.ok (Except.ok s)
  parse := fun s => ExtResult.ok (Except.ok s)

/-- A model whose tagger throws a `std::exception` with an empty `what()`
text. -/
def model_throw_empty : Model where
  tokenizer_creation := ExtResult.ok true
  tokenize := fun _ => ExtResult.ok (Except.ok sent_cat)
  tag := fun _ => ExtResult.thrown (Exn.std "")
  parse := fun s => ExtResult.ok (Except.ok s)

/-! Helper lemmas about allocation-success runs. -/

/-- With an exhausted oracle every allocation succeeds, so
`duplicate_string` is the pure "null iff empty" copy. -/
theorem duplicate_string_exhausted (s : String) :
    duplicate_string s ⟨[]⟩ = (if s.isEmpty then none else some s, ⟨[]⟩) := by
  by_cases h : s.isEmpty <;> simp [duplicate_string, h, allocOk]

/-- The pure word copy performed when every allocation succeeds. -/
def copy_word_ok (w : InternalWord) : UDPipeWord :=
  ⟨w.id,
   if w.form.isEmpty then none else some w.form,
   if w.lemma_f.isEmpty then none else some w.lemma_f,
   if w.upostag.isEmpty then none else some w.upostag,
   if w.xpostag.isEmpty then none else some w.xpostag,
   if w.feats.isEmpty then none else some w.feats,
   w.head,
   if w.deprel.isEmpty then none else some w.deprel,
   if w.deps.isEmpty then none else some w.deps,
   if w.misc.isEmpty then none else some w.misc⟩

/-- `convert_word` under an exhausted oracle is the pure copy. -/
theorem convert_word_exhausted (w : InternalWord) :
    convert_word w ⟨[]⟩ = (copy_word_ok w, ⟨[]⟩) := by
  simp [convert_word, duplicate_string_exhausted, copy_word_ok]

/-- `convert_words` under an exhausted oracle maps the pure copy. -/
theorem convert_words_exhausted (l : List InternalWord) :
    convert_words l ⟨[]⟩ = (l.map copy_word_ok, ⟨[]⟩) := by
  induction l with
  | nil => simp [convert_words]
  | cons w ws ih => simp [convert_words, convert_word_exhausted, ih]

/-! Claim theorems. -/

/-- C4: when allocation succeeds, `duplicate_string` returns the null
marker if and only if the input is empty, and otherwise an independently
owned copy whose contents equal the input. -/
theorem c4_duplicate_string_spec (s : String) (a : AllocSt)
    (ha : (allocOk a).1 = true) :
    ((duplicate_string s a).1 = none ↔ s = "") ∧
    (s ≠ "" → (duplicate_string s a).1 = some s) := by
  by_cases hs : s.isEmpty
  · have hse : s = "" := (String.isEmpty_iff s).mp hs
    subst hse
    have he : ("" : String).isEmpty = true := rfl
    constructor
    · simp [duplicate_string, he]
    · intro h; exact absurd rfl h
  · have hne : s ≠ "" := fun h => hs (by rw [h]; decide)
    cases hA : allocOk a with
    | mk ok rest =>
      rw [hA] at ha
      simp only at ha
      subst ha
      constructor
      · rw [duplicate_string, if_neg hs, hA]
        simp [hne]
      · intro _
        rw [duplicate_string, if_neg hs, hA]
        simp

/-- C4 witness: at input "x" with an empty (all-success) oracle, the copy
is `some "x"` and is not the null marker. -/
theorem c4_witness :
    (allocOk ⟨[]⟩).1 = true ∧
    (((duplicate_string "x" ⟨[]⟩).1 = none ↔ ("x" : String) = "") ∧
      (("x" : String) ≠ "" → (duplicate_string "x" ⟨[]⟩).1 = some "x")) :=
  ⟨by decide, c4_duplicate_string_spec "x" ⟨[]⟩ (by decide)⟩

/-- C5: destroying a null record pointer performs no frees, and destroying
a record obtained from `udpipe_sentence_create` that was never populated is
defined behaviour that frees exactly the record allocation itself — no
owned field is freed twice and nothing but what the record owns is
released. -/
theorem c5_destroy_zero_record_safe (a : AllocSt) (r : UDPipeSentence)
    (h : (udpipe_sentence_create a).1 = some r) :
    udpipe_sentence_destroy none = some [] ∧
    udpipe_sentence_destroy (some r) = some [FreeTarget.recordPtr] ∧
    List.Nodup [FreeTarget.recordPtr] := by
  have hr : r = ⟨none, 0, none⟩ := by
    unfold udpipe_sentence_create at h
    cases hA : allocOk a with
    | mk ok rest =>
      rw [hA] at h
      cases ok <;> simp_all
  subst hr
  refine ⟨rfl, ?_, List.nodup_singleton _⟩
  rfl

/-- C5 witness: a concrete create-then-destroy run with a fresh oracle. -/
theorem c5_witness :
    (udpipe_sentence_create ⟨[]⟩).1 = some zero_record ∧
    (udpipe_sentence_destroy none = some [] ∧
      udpipe_sentence_destroy (some zero_record) = some [FreeTarget.recordPtr] ∧
      List.Nodup [FreeTarget.recordPtr]) :=
  ⟨by decide, c5_destroy_zero_record_safe ⟨[]⟩ zero_record (by decide)⟩

/-- C6: `udpipe_sentence_get_word` on a non-null internal sentence with a
non-null out-record fails on any index at or past the word count, leaving
the out-record untouched, and succeeds on every in-range index. -/
theorem c6_get_word_bounds_checked (s : InternalSentence) (i : Nat)
    (w0 : UDPipeWord) (a : AllocSt) :
    (s.words.length ≤ i →
      udpipe_sentence_get_word (some s) i (some w0) a = ⟨0, some w0, a⟩) ∧
    (i < s.words.length →
      (udpipe_sentence_get_word (some s) i (some w0) a).rc = 1) := by
  constructor
  · intro hle
    rw [udpipe_sentence_get_word]
    rw [dif_neg (by omega)]
  · intro hlt
    rw [udpipe_sentence_get_word]
    rw [dif_pos hlt]

/-- C6 witness: on the one-word sentence `sent_cat`, index 5 fails leaving
the out-record untouched and index 0 succeeds. -/
theorem c6_witness :
    (sent_cat.words.length ≤ 5 →
      udpipe_sentence_get_word (some sent_cat) 5 (some w_zero) ⟨[]⟩ =
        ⟨0, some w_zero, ⟨[]⟩⟩) ∧
    (udpipe_sentence_get_word (some sent_cat) 0 (some w_zero) ⟨[]⟩).rc = 1 :=
  ⟨(c6_get_word_bounds_checked sent_cat 5 w_zero ⟨[]⟩).1,
   (c6_get_word_bounds_checked sent_cat 0 w_zero ⟨[]⟩).2 (by decide)⟩

/-- C1: refuted by the code — when the word-array allocation succeeds but
the per-field `duplicate_string` copy of the (non-empty) `form` field fails,
`udpipe_process_text` still returns 1 (success) with no OutOfMemory error
reported and the field silently null: the allocation failure during
conversion is not detected. -/
theorem c1_per_field_alloc_failure_returns_success :
    udpipe_process_text (some model_cat) (some "cat") (some zero_record)
        (some none) ⟨[true, false]⟩ =
      ⟨1, some ⟨some [⟨1, none, some "cat", some "NOUN", some "NN", none, 0,
        some "root", none, none⟩], 1, some "cat"⟩, some none, ⟨[]⟩⟩ ∧
    w_cat.form = "cat" := by decide

/-- C2: refuted by the code — when the word-array allocation fails,
`udpipe_process_text` returns failure but leaves the record with
`word_count = 1` and a null `words` array, violating the invariant
`word_count == length(words)`; a subsequent `udpipe_sentence_destroy` on
that record dereferences the null word array (undefined behaviour). -/
theorem c2_invariant_broken_on_word_array_alloc_failure :
    udpipe_process_text (some model_cat) (some "cat") (some zero_record)
        (some none) ⟨[false]⟩ =
      ⟨0, some ⟨none, 1, none⟩, some (some "Memory allocation failed"), ⟨[]⟩⟩ ∧
    udpipe_sentence_destroy (some ⟨none, 1, none⟩) = none := by decide

/-- C3 counterexample: with empty (non-null) input text the call is not
rejected as InvalidArgument — the pipeline runs and fails in the tokenizer
with "No sentence found" instead of "Invalid parameters". -/
theorem c3_counterexample_empty_text :
    udpipe_process_text (some model_cat) (some "") (some zero_record)
        (some none) ⟨[]⟩ =
      ⟨0, some zero_record, some (some "No sentence found"), ⟨[]⟩⟩ ∧
    ("No sentence found" : String) ≠ "Invalid parameters" := by decide

/-- C3 amended: a null model handle or a null input text makes
`udpipe_process_text` fail immediately with the invalid-parameters error,
leaving the record untouched and allocating nothing beyond the error
message itself; empty non-null text is not rejected up front. -/
theorem c3_null_args_invalid_argument (mp : Option Model) (t : Option String)
    (r : Option UDPipeSentence) (e0 : Option String) (a : AllocSt)
    (h : mp = none ∨ t = none) (ha : (allocOk a).1 = true) :
    udpipe_process_text mp t r (some e0) a =
      ⟨0, r, some (some "Invalid parameters"), (allocOk a).2⟩ := by
  have hne : ("Invalid parameters" : String).isEmpty = false := by decide
  cases hA : allocOk a with
  | mk ok rest =>
    rw [hA] at ha
    simp only at ha
    subst ha
    rcases h with h | h
    · subst h
      cases t <;> cases r <;>
        simp [udpipe_process_text, set_error, duplicate_string, hne, hA]
    · subst h
      cases mp <;> cases r <;>
        simp [udpipe_process_text, set_error, duplicate_string, hne, hA]

/-- C3 amended witness: a concrete null-model call. -/
theorem c3_witness :
    ((none : Option Model) = none ∨ (some "cat" : Option String) = none) ∧
    (allocOk ⟨[]⟩).1 = true ∧
    udpipe_process_text none (some "cat") (some zero_record) (some none) ⟨[]⟩ =
      ⟨0, some zero_record, some (some "Invalid parameters"), ⟨[]⟩⟩ :=
  ⟨Or.inl rfl, by decide,
   c3_null_args_invalid_argument none (some "cat") (some zero_record) none ⟨[]⟩
     (Or.inl rfl) (by decide)⟩

/-- C10: a call with a null `result` pointer fails with the
invalid-parameters error message without touching any record. -/
theorem c10_null_result_pointer (mp : Option Model) (t : Option String)
    (e0 : Option String) (a : AllocSt) (ha : (allocOk a).1 = true) :
    udpipe_process_text mp t none (some e0) a =
      ⟨0, none, some (some "Invalid parameters"), (allocOk a).2⟩ := by
  have hne : ("Invalid parameters" : String).isEmpty = false := by decide
  cases hA : allocOk a with
  | mk ok rest =>
    rw [hA] at ha
    simp only at ha
    subst ha
    cases mp <;> cases t <;>
      simp [udpipe_process_text, set_error, duplicate_string, hne, hA]

/-- C10 witness: a concrete call with a live model and text but a null
result pointer. -/
theorem c10_witness :
    (allocOk ⟨[]⟩).1 = true ∧
    udpipe_process_text (some model_cat) (some "cat") none (some none) ⟨[]⟩ =
      ⟨0, none, some (some "Invalid parameters"), ⟨[]⟩⟩ :=
  ⟨by decide,
   c10_null_result_pointer (some model_cat) (some "cat") none ⟨[]⟩ (by decide)⟩

/-- `set_error` on a non-null channel overwrites the cell with the
(allocation-dependent) copy regardless of the cell's previous contents. -/
theorem set_error_some (e0 : Option String) (msg : String) (a : AllocSt) :
    set_error (some e0) msg a =
      (some (duplicate_string msg a).1, (duplicate_string msg a).2) := by
  cases h : duplicate_string msg a with
  | mk v a1 => simp [set_error, h]

/-- When every pipeline stage returns successfully and every allocation
succeeds, `udpipe_process_text` returns 1, leaves the error channel
untouched, and populates the record with the pure copies of the parsed
sentence's words (or, for a zero-word sentence, only resets `word_count`
and the text). -/
theorem process_stages_ok (m : Model) (t : String) (rec : UDPipeSentence)
    (e0 : Option String) (s1 s2 s3 : InternalSentence)
    (h0 : m.tokenizer_creation = ExtResult.ok true)
    (h1 : m.tokenize t = ExtResult.ok (Except.ok s1))
    (h2 : m.tag s1 = ExtResult.ok (Except.ok s2))
    (h3 : m.parse s2 = ExtResult.ok (Except.ok s3)) :
    udpipe_process_text (some m) (some t) (some rec) (some e0) ⟨[]⟩ =
      ⟨1, some (if s3.words.length > 0
          then ⟨some (s3.words.map copy_word_ok), s3.words.length,
            if t.isEmpty then none else some t⟩
          else { rec with
            word_count := 0,
            text := if t.isEmpty then none else some t }),
        some e0, ⟨[]⟩⟩ := by
  by_cases hn : s3.words.length > 0
  · simp [udpipe_process_text, h0, h1, h2, h3, hn, allocOk,
      convert_words_exhausted, duplicate_string_exhausted]
  · simp [udpipe_process_text, h0, h1, h2, h3, hn,
      duplicate_string_exhausted]

/-- C8: round-trip equality — when the pipeline succeeds on an internal
sentence with `i < N` words and every allocation succeeds, the word that
`udpipe_sentence_get_word` copies out of the internal sentence at index `i`
is field-for-field equal (all ten `UDPipeWord` fields, via record equality)
to the word at index `i` of the converted record. -/
theorem c8_round_trip (m : Model) (t : String) (rec : UDPipeSentence)
    (s1 s2 s3 : InternalSentence)
    (h0 : m.tokenizer_creation = ExtResult.ok true)
    (h1 : m.tokenize t = ExtResult.ok (Except.ok s1))
    (h2 : m.tag s1 = ExtResult.ok (Except.ok s2))
    (h3 : m.parse s2 = ExtResult.ok (Except.ok s3))
    (i : Nat) (hi : i < s3.words.length) (w0 : UDPipeWord) :
    (udpipe_process_text (some m) (some t) (some rec) (some none) ⟨[]⟩).rc = 1 ∧
    ∃ ws : List UDPipeWord,
      (udpipe_process_text (some m) (some t) (some rec) (some none) ⟨[]⟩).res =
        some ⟨some ws, s3.words.length, if t.isEmpty then none else some t⟩ ∧
      ws.length = s3.words.length ∧
      (udpipe_sentence_get_word (some s3) i (some w0) ⟨[]⟩).rc = 1 ∧
      ws[i]? = (udpipe_sentence_get_word (some s3) i (some w0) ⟨[]⟩).word := by
  have hn : s3.words.length > 0 := by omega
  have hp := process_stages_ok m t rec none s1 s2 s3 h0 h1 h2 h3
  rw [if_pos hn] at hp
  refine ⟨by rw [hp], s3.words.map copy_word_ok, by rw [hp], by simp, ?_, ?_⟩
  · rw [udpipe_sentence_get_word, dif_pos hi]
  · rw [udpipe_sentence_get_word, dif_pos hi, convert_word_exhausted]
    rw [List.getElem?_map, List.getElem?_eq_getElem hi]
    rfl

/-- C8 witness: the one-word model, text "cat", index 0. -/
theorem c8_witness :
    model_cat.tokenizer_creation = ExtResult.ok true ∧
    model_cat.tokenize "cat" = ExtResult.ok (Except.ok sent_cat) ∧
    model_cat.tag sent_cat = ExtResult.ok (Except.ok sent_cat) ∧
    model_cat.parse sent_cat = ExtResult.ok (Except.ok sent_cat) ∧
    0 < sent_cat.words.length ∧
    ((udpipe_process_text (some model_cat) (some "cat") (some zero_record)
        (some none) ⟨[]⟩).rc = 1 ∧
      ∃ ws : List UDPipeWord,
        (udpipe_process_text (some model_cat) (some "cat") (some zero_record)
            (some none) ⟨[]⟩).res =
          some ⟨some ws, sent_cat.words.length,
            if ("cat" : String).isEmpty then none else some "cat"⟩ ∧
        ws.length = sent_cat.words.length ∧
        (udpipe_sentence_get_word (some sent_cat) 0 (some w_zero) ⟨[]⟩).rc = 1 ∧
        ws[0]? = (udpipe_sentence_get_word (some sent_cat) 0 (some w_zero) ⟨[]⟩).word) :=
  ⟨rfl, by rfl, rfl, rfl, by decide,
   c8_round_trip model_cat "cat" zero_record sent_cat sent_cat sent_cat
     rfl (by rfl) rfl rfl 0 (by decide) w_zero⟩

/-- `set_error` on a non-null channel under an exhausted (all-success)
oracle: the cell gets the pure copy of the message. -/
theorem set_error_exhausted (e0 : Option String) (msg : String) :
    set_error (some e0) msg ⟨[]⟩ =
      (some (if msg.isEmpty then none else some msg), ⟨[]⟩) := by
  rw [set_error_some, duplicate_string_exhausted]

/-- C7 counterexample: a model whose tagger throws a `std::exception` with
an empty `what()` text. The call fails (returns 0) but the non-null error
channel ends up holding a null pointer (`err = some none`): the caller
receives neither a populated record nor a populated error description,
because `duplicate_string` maps the empty exception text to `nullptr`. -/
theorem c7_counterexample_empty_what :
    udpipe_process_text (some model_throw_empty) (some "cat") (some zero_record)
        (some none) ⟨[]⟩ =
      ⟨0, some zero_record, some none, ⟨[]⟩⟩ := by decide

/-- Hypothesis for the amended C7: along this run, any `std::exception` the
model layer can throw carries a non-empty `what()` description. -/
def exn_nonempty_for (m : Model) (t : String) : Prop :=
  (∀ s, m.tokenizer_creation = ExtResult.thrown (Exn.std s) → s.isEmpty = false) ∧
  (∀ s, m.tokenize t = ExtResult.thrown (Exn.std s) → s.isEmpty = false) ∧
  (∀ st s, m.tag st = ExtResult.thrown (Exn.std s) → s.isEmpty = false) ∧
  (∀ st s, m.parse st = ExtResult.thrown (Exn.std s) → s.isEmpty = false)

/-- The amended C7's allocation hypothesis: the allocation consumed for the
error-string copy on this run, if the run reports an error at all,
succeeds. Pre-extraction failures (tokenizer creation, tokenization,
tagging, parsing) write their message with the oracle still at `a`; the
word-array-malloc failure writes its message only after that first
allocation failed. All other allocations (the word array, the per-field and
text copies) are unconstrained. -/
def error_alloc_ok (m : Model) (t : String) (a : AllocSt) : Prop :=
  match m.tokenizer_creation with
  | ExtResult.thrown _ => (allocOk a).1 = true
  | ExtResult.ok false => (allocOk a).1 = true
  | ExtResult.ok true =>
    match m.tokenize t with
    | ExtResult.thrown _ => (allocOk a).1 = true
    | ExtResult.ok (Except.error _) => (allocOk a).1 = true
    | ExtResult.ok (Except.ok s1) =>
      match m.tag s1 with
      | ExtResult.thrown _ => (allocOk a).1 = true
      | ExtResult.ok (Except.error _) => (allocOk a).1 = true
      | ExtResult.ok (Except.ok s2) =>
        match m.parse s2 with
        | ExtResult.thrown _ => (allocOk a).1 = true
        | ExtResult.ok (Except.error _) => (allocOk a).1 = true
        | ExtResult.ok (Except.ok s3) =>
          s3.words.length > 0 → (allocOk a).1 = false →
            (allocOk (allocOk a).2).1 = true

/-- `set_error` on a non-null channel with a non-empty message and a
successful allocation stores exactly that message. -/
theorem set_error_ok (e0 : Option String) (msg : String) (a : AllocSt)
    (h1 : msg.isEmpty = false) (h2 : (allocOk a).1 = true) :
    set_error (some e0) msg a = (some (some msg), (allocOk a).2) := by
  cases hA : allocOk a with
  | mk ok rest =>
    rw [hA] at h2
    simp only at h2
    subst h2
    have hd : duplicate_string msg a = (some msg, rest) := by
      rw [duplicate_string, if_neg (by simp [h1]), hA]
      simp
    rw [set_error_some, hd]

/-- C7 amended: with a non-null error channel, exceptions carrying
non-empty descriptions, and the error-string allocation (where one is
performed) succeeding, every `udpipe_process_text` call either returns 1
with the error channel untouched, or returns 0 with the channel holding
exactly one owned error description — never both, never neither. All other
allocations, in particular the word array and the per-field copies, may
fail arbitrarily. -/
theorem c7_success_xor_error (m : Model) (t : String) (rec : UDPipeSentence)
    (e0 : Option String) (a : AllocSt)
    (hx : exn_nonempty_for m t) (hE : error_alloc_ok m t a) :
    ((udpipe_process_text (some m) (some t) (some rec) (some e0) a).rc = 1 ∧
      (udpipe_process_text (some m) (some t) (some rec) (some e0) a).err =
        some e0) ∨
    ((udpipe_process_text (some m) (some t) (some rec) (some e0) a).rc = 0 ∧
      ∃ msg,
        (udpipe_process_text (some m) (some t) (some rec) (some e0) a).err =
          some (some msg)) := by
  obtain ⟨hx0, hx1, hx2, hx3⟩ := hx
  have hm1 : ("Failed to create tokenizer" : String).isEmpty = false := by decide
  have hm2 : ("No sentence found" : String).isEmpty = false := by decide
  have hm3 : ("POS tagging failed" : String).isEmpty = false := by decide
  have hm4 : ("Dependency parsing failed" : String).isEmpty = false := by decide
  have hm5 : ("Unknown error occurred" : String).isEmpty = false := by decide
  have hm6 : ("Memory allocation failed" : String).isEmpty = false := by decide
  cases h0 : m.tokenizer_creation with
  | thrown e =>
    right
    have hEa : (allocOk a).1 = true := by
      simpa [error_alloc_ok, h0] using hE
    cases e with
    | std s =>
      have hs := hx0 s h0
      simp [udpipe_process_text, h0, exn_message, set_error_ok e0 s a hs hEa]
    | other =>
      simp [udpipe_process_text, h0, exn_message,
        set_error_ok e0 "Unknown error occurred" a hm5 hEa]
  | ok b =>
    cases b with
    | false =>
      right
      have hEa : (allocOk a).1 = true := by
        simpa [error_alloc_ok, h0] using hE
      simp [udpipe_process_text, h0,
        set_error_ok e0 "Failed to create tokenizer" a hm1 hEa]
    | true =>
      cases h1 : m.tokenize t with
      | thrown e =>
        right
        have hEa : (allocOk a).1 = true := by
          simpa [error_alloc_ok, h0, h1] using hE
        cases e with
        | std s =>
          have hs := hx1 s h1
          simp [udpipe_process_text, h0, h1, exn_message,
            set_error_ok e0 s a hs hEa]
        | other =>
          simp [udpipe_process_text, h0, h1, exn_message,
            set_error_ok e0 "Unknown error occurred" a hm5 hEa]
      | ok r1 =>
        cases r1 with
        | error err =>
          right
          have hEa : (allocOk a).1 = true := by
            simpa [error_alloc_ok, h0, h1] using hE
          cases he : err.isEmpty with
          | true =>
            simp [udpipe_process_text, h0, h1, he,
              set_error_ok e0 "No sentence found" a hm2 hEa]
          | false =>
            simp [udpipe_process_text, h0, h1, he,
              set_error_ok e0 err a he hEa]
        | ok s1 =>
          cases h2 : m.tag s1 with
          | thrown e =>
            right
            have hEa : (allocOk a).1 = true := by
              simpa [error_alloc_ok, h0, h1, h2] using hE
            cases e with
            | std s =>
              have hs := hx2 s1 s h2
              simp [udpipe_process_text, h0, h1, h2, exn_message,
                set_error_ok e0 s a hs hEa]
            | other =>
              simp [udpipe_process_text, h0, h1, h2, exn_message,
                set_error_ok e0 "Unknown error occurred" a hm5 hEa]
          | ok r2 =>
            cases r2 with
            | error err =>
              right
              have hEa : (allocOk a).1 = true := by
                simpa [error_alloc_ok, h0, h1, h2] using hE
              cases he : err.isEmpty with
              | true =>
                simp [udpipe_process_text, h0, h1, h2, he,
                  set_error_ok e0 "POS tagging failed" a hm3 hEa]
              | false =>
                simp [udpipe_process_text, h0, h1, h2, he,
                  set_error_ok e0 err a he hEa]
            | ok s2 =>
              cases h3 : m.parse s2 with
              | thrown e =>
                right
                have hEa : (allocOk a).1 = true := by
                  simpa [error_alloc_ok, h0, h1, h2, h3] using hE
                cases e with
                | std s =>
                  have hs := hx3 s2 s h3
                  simp [udpipe_process_text, h0, h1, h2, h3, exn_message,
                    set_error_ok e0 s a hs hEa]
                | other =>
                  simp [udpipe_process_text, h0, h1, h2, h3, exn_message,
                    set_error_ok e0 "Unknown error occurred" a hm5 hEa]
              | ok r3 =>
                cases r3 with
                | error err =>
                  right
                  have hEa : (allocOk a).1 = true := by
                    simpa [error_alloc_ok, h0, h1, h2, h3] using hE
                  cases he : err.isEmpty with
                  | true =>
                    simp [udpipe_process_text, h0, h1, h2, h3, he,
                      set_error_ok e0 "Dependency parsing failed" a hm4 hEa]
                  | false =>
                    simp [udpipe_process_text, h0, h1, h2, h3, he,
                      set_error_ok e0 err a he hEa]
                | ok s3 =>
                  have hE3 : s3.words.length > 0 → (allocOk a).1 = false →
                      (allocOk (allocOk a).2).1 = true := by
                    simpa [error_alloc_ok, h0, h1, h2, h3] using hE
                  by_cases hn : s3.words.length > 0
                  · cases hA : allocOk a with
                    | mk okA a1 =>
                      cases okA with
                      | false =>
                        right
                        have h2nd : (allocOk a1).1 = true := by
                          have hh := hE3 hn (by rw [hA])
                          rwa [hA] at hh
                        simp [udpipe_process_text, h0, h1, h2, h3, hn, hA,
                          set_error_ok e0 "Memory allocation failed" a1 hm6 h2nd]
                      | true =>
                        left
                        cases hW : convert_words s3.words a1 with
                        | mk ws a2 =>
                          cases hT : duplicate_string t a2 with
                          | mk topt a3 =>
                            simp [udpipe_process_text, h0, h1, h2, h3, hn, hA,
                              hW, hT]
                  · left
                    cases hT : duplicate_string t a with
                    | mk topt a1 =>
                      simp [udpipe_process_text, h0, h1, h2, h3, hn, hT]

/-- C7 amended witness: the well-behaved one-word model on "cat" with a
null-initialized channel, at two oracles that exercise both disjuncts
while leaving non-error allocations free to fail: `[false]` (the word-array
malloc fails, the error-string allocation succeeds — failure with exactly
one owned error) and `[true, false]` (a per-field copy fails — success with
the channel untouched). -/
theorem c7_witness :
    exn_nonempty_for model_cat "cat" ∧
    error_alloc_ok model_cat "cat" ⟨[false]⟩ ∧
    error_alloc_ok model_cat "cat" ⟨[true, false]⟩ ∧
    (((udpipe_process_text (some model_cat) (some "cat") (some zero_record)
          (some none) ⟨[false]⟩).rc = 1 ∧
        (udpipe_process_text (some model_cat) (some "cat") (some zero_record)
          (some none) ⟨[false]⟩).err = some none) ∨
      ((udpipe_process_text (some model_cat) (some "cat") (some zero_record)
          (some none) ⟨[false]⟩).rc = 0 ∧
        ∃ msg,
          (udpipe_process_text (some model_cat) (some "cat") (some zero_record)
            (some none) ⟨[false]⟩).err = some (some msg))) ∧
    (((udpipe_process_text (some model_cat) (some "cat") (some zero_record)
          (some none) ⟨[true, false]⟩).rc = 1 ∧
        (udpipe_process_text (some model_cat) (some "cat") (some zero_record)
          (some none) ⟨[true, false]⟩).err = some none) ∨
      ((udpipe_process_text (some model_cat) (some "cat") (some zero_record)
          (some none) ⟨[true, false]⟩).rc = 0 ∧
        ∃ msg,
          (udpipe_process_text (some model_cat) (some "cat") (some zero_record)
            (some none) ⟨[true, false]⟩).err = some (some msg))) := by
  have hc : ("cat" : String).isEmpty = false := by decide
  have hx : exn_nonempty_for model_cat "cat" := by
    refine ⟨?_, ?_, ?_, ?_⟩
    · intro s h; simp [model_cat] at h
    · intro s h; simp [model_cat, hc] at h
    · intro st s h; simp [model_cat] at h
    · intro st s h; simp [model_cat] at h
  have hE1 : error_alloc_ok model_cat "cat" ⟨[false]⟩ := by
    simp [error_alloc_ok, model_cat, hc, allocOk]
  have hE2 : error_alloc_ok model_cat "cat" ⟨[true, false]⟩ := by
    simp [error_alloc_ok, model_cat, hc, allocOk]
  exact ⟨hx, hE1, hE2,
    c7_success_xor_error model_cat "cat" zero_record none ⟨[false]⟩ hx hE1,
    c7_success_xor_error model_cat "cat" zero_record none ⟨[true, false]⟩ hx hE2⟩

/-- C9: determinism — two `udpipe_process_text` calls with the same model
state, the same input text and the same allocation behaviour, on two
independently created (zero-initialized) records and with independent error
cells, return the same success flag and structurally equal records (same
word count and same value for every field of every word). -/
theorem c9_process_deterministic (m : Model) (t : String)
    (r1 r2 : UDPipeSentence) (e1 e2 : Option String) (a : AllocSt)
    (hr1 : r1 = ⟨none, 0, none⟩) (hr2 : r2 = ⟨none, 0, none⟩) :
    (udpipe_process_text (some m) (some t) (some r1) (some e1) a).rc =
      (udpipe_process_text (some m) (some t) (some r2) (some e2) a).rc ∧
    (udpipe_process_text (some m) (some t) (some r1) (some e1) a).res =
      (udpipe_process_text (some m) (some t) (some r2) (some e2) a).res := by
  subst hr1; subst hr2
  cases h0 : m.tokenizer_creation with
  | thrown e => simp [udpipe_process_text, h0, set_error_some]
  | ok b =>
    cases b with
    | false => simp [udpipe_process_text, h0, set_error_some]
    | true =>
      cases h1 : m.tokenize t with
      | thrown e => simp [udpipe_process_text, h0, h1, set_error_some]
      | ok r1 =>
        cases r1 with
        | error err => simp [udpipe_process_text, h0, h1, set_error_some]
        | ok s1 =>
          cases h2 : m.tag s1 with
          | thrown e => simp [udpipe_process_text, h0, h1, h2, set_error_some]
          | ok r2 =>
            cases r2 with
            | error err => simp [udpipe_process_text, h0, h1, h2, set_error_some]
            | ok s2 =>
              cases h3 : m.parse s2 with
              | thrown e =>
                simp [udpipe_process_text, h0, h1, h2, h3, set_error_some]
              | ok r3 =>
                cases r3 with
                | error err =>
                  simp [udpipe_process_text, h0, h1, h2, h3, set_error_some]
                | ok s3 =>
                  by_cases hn : s3.words.length > 0
                  · cases hA : allocOk a with
                    | mk okA a1 =>
                      cases okA with
                      | false =>
                        simp [udpipe_process_text, h0, h1, h2, h3, hn, hA,
                          set_error_some]
                      | true =>
                        cases hW : convert_words s3.words a1 with
                        | mk ws a2 =>
                          cases hT : duplicate_string t a2 with
                          | mk topt a3 =>
                            simp [udpipe_process_text, h0, h1, h2, h3, hn, hA,
                              hW, hT]
                  · cases hT : duplicate_string t a with
                    | mk topt a1 =>
                      simp [udpipe_process_text, h0, h1, h2, h3, hn, hT]

/-- C9 witness: the concrete one-word model on "cat" with two separately
created zero records and differently pre-initialized error cells. -/
theorem c9_witness :
    zero_record = (⟨none, 0, none⟩ : UDPipeSentence) ∧
    ((udpipe_process_text (some model_cat) (some "cat") (some zero_record)
        (some none) ⟨[]⟩).rc =
      (udpipe_process_text (some model_cat) (some "cat") (some zero_record)
        (some (some "stale")) ⟨[]⟩).rc ∧
    (udpipe_process_text (some model_cat) (some "cat") (some zero_record)
        (some none) ⟨[]⟩).res =
      (udpipe_process_text (some model_cat) (some "cat") (some zero_record)
        (some (some "stale")) ⟨[]⟩).res) :=
  ⟨rfl, c9_process_deterministic model_cat "cat" zero_record zero_record
    none (some "stale") ⟨[]⟩ rfl rfl⟩
